import Mathlib

/-!
Shallow embedding of the recipe catalog service (gemini.js / index.js / db.js).

The service is an Express application over a MongoDB store.  We embed the
collections as Lean lists, request bodies as structures whose fields are
Option-typed (a JSON body may omit a field; JavaScript truthiness is modelled
per field type), and each route handler as a pure function from the database
state and the request data to a status code (and, for writing handlers, the
new database state).  Thrown JavaScript exceptions (in particular the
BSONError raised by the ObjectId constructor on a malformed id string) are
modelled with Except, and each handler applies exactly the catch structure
the source has.  MongoDB query objects built by the handlers are embedded as
a Criteria record, one optional field per clause the source can emit, with
an evaluation function giving the MongoDB semantics of those clauses;
a case-insensitive regex whose pattern is a plain name is evaluated as
ASCII-case-insensitive substring containment.
-/

namespace RecipeService

/-- ASCII lower-casing of one character, as JavaScript toLowerCase acts on
the ASCII range (the only range exercised by the vocabulary data). -/
def lcChar (c : Char) : Char :=
  if 'A' ≤ c && c ≤ 'Z' then Char.ofNat (c.toNat + 32) else c

/-- ASCII lower-casing of a character list. -/
def lcList (l : List Char) : List Char := l.map lcChar

/-- Boolean prefix test on character lists. -/
def isPre : List Char → List Char → Bool
  | [], _ => true
  | _ :: _, [] => false
  | p :: ps, h :: hs => p == h && isPre ps hs

/-- Boolean substring test: does hay contain pat as a contiguous sublist. -/
def hasSub : List Char → List Char → Bool
  | [], pat => isPre pat []
  | h :: t, pat => isPre pat (h :: t) || hasSub t pat

/-- Case-insensitive substring containment: the semantics of the MongoDB
clause \x7b $regex: pat, $options: "i" \x7d when pat is a plain name with no
regex metacharacters, matched against the string hay. -/
def ciContains (hay pat : String) : Bool :=
  hasSub (lcList hay.toList) (lcList pat.toList)

/-- JavaScript String.prototype.split(",") on a character list: splits at
every comma, keeping empty pieces, and maps the empty input to one empty
piece. -/
def splitCommaAux : List Char → List Char → List String
  | [], acc => [String.mk acc.reverse]
  | c :: rest, acc =>
    if c == ',' then String.mk acc.reverse :: splitCommaAux rest []
    else splitCommaAux rest (c :: acc)

/-- JavaScript s.split(","). -/
def splitComma (s : String) : List String := splitCommaAux s.toList []

/-- Hex-digit test used by the ObjectId format check. -/
def isHexChar (c : Char) : Bool :=
  c.isDigit || ('a' ≤ c && c ≤ 'f') || ('A' ≤ c && c ≤ 'F')

/-- The BSON ObjectId constructor accepts exactly a 24-character hex string;
on any other string it throws a BSONError. -/
def isValidObjectId (s : String) : Bool :=
  s.toList.length == 24 && s.toList.all isHexChar

/-- Truthiness of an optional JSON string field: absent and "" are falsy. -/
def truthyStr : Option String → Bool
  | none => false
  | some s => !(s == "")

/-- Truthiness of an optional JSON number field: absent and 0 are falsy. -/
def truthyInt : Option Int → Bool
  | none => false
  | some n => !(n == 0)

/-- Truthiness of an optional JSON array field: any present array is truthy
in JavaScript, including the empty array. -/
def truthyList {α : Type} : Option (List α) → Bool
  | none => false
  | some _ => true

/-- One ingredient of a recipe: \x7bname, quantity, unit\x7d, all strings. -/
structure Ingredient where
  name : String
  quantity : String
  unit : String
deriving Repr, DecidableEq

/-- A document of the cuisines collection (also the shape of the embedded
cuisine snapshot \x7b_id, name\x7d written into recipes). -/
structure CuisineDoc where
  id : Nat
  name : String
deriving Repr, DecidableEq

/-- A document of the tags collection. -/
structure TagDoc where
  id : Nat
  name : String
deriving Repr, DecidableEq

/-- A review appended by POST /recipes/:id/reviews: review_id and date are
generated by the server at append time. -/
structure Review where
  review_id : String
  user : String
  rating : Int
  comment : String
  date : Nat
deriving Repr, DecidableEq

/-- A document of the recipes collection. -/
structure StoredRecipe where
  id : String
  name : String
  cuisine : CuisineDoc
  prepTime : Int
  cookTime : Int
  servings : Int
  ingredients : List Ingredient
  instructions : List String
  tags : List TagDoc
  reviews : List Review
deriving Repr, DecidableEq

/-- The database state: the three collections the core touches. -/
structure DB where
  cuisines : List CuisineDoc
  tags : List TagDoc
  recipes : List StoredRecipe
deriving Repr, DecidableEq

/-- A candidate recipe as it arrives in a POST/PUT request body: each field
may be absent (none). -/
structure Candidate where
  name : Option String
  cuisine : Option String
  prepTime : Option Int
  cookTime : Option Int
  servings : Option Int
  ingredients : Option (List Ingredient)
  instructions : Option (List String)
  tags : Option (List String)
deriving Repr, DecidableEq

/-- The normalized recipe produced by validateRecipe: cuisine replaced by
the resolved snapshot, tags replaced by the resolved tag documents. -/
structure NormalizedRecipe where
  name : String
  cuisine : CuisineDoc
  prepTime : Int
  cookTime : Int
  servings : Int
  ingredients : List Ingredient
  instructions : List String
  tags : List TagDoc
deriving Repr, DecidableEq

/-- The structured recipe draft returned by generateRecipe: its response
schema makes all eight fields required, so none is optional here. -/
structure RecipeDraft where
  name : String
  cuisine : String
  prepTime : Int
  cookTime : Int
  servings : Int
  ingredients : List Ingredient
  instructions : List String
  tags : List String
deriving Repr, DecidableEq

/-- The structured query returned by generateSearchParams: its response
schema makes all four fields required. -/
structure StructuredAIQuery where
  cuisines : List String
  tags : List String
  ingredients : List String
  userLanguage : String
deriving Repr, DecidableEq

/-- db.collection(cuisines).findOne(\x7bname: n\x7d). -/
def findOneCuisine (db : DB) (n : String) : Option CuisineDoc :=
  db.cuisines.find? (fun c => c.name == n)

/-- db.collection(tags).find(\x7bname: \x7b$in: names\x7d\x7d).toArray():
every tag document whose name is among the requested names, in collection
order. -/
def findTags (db : DB) (names : List String) : List TagDoc :=
  db.tags.filter (fun t => names.contains t.name)

/-- The validation errors of validateRecipe, with their response messages
missingFields = "Missing fields", invalidCuisine = "Invalid cuisine",
invalidTags = "One or more tags is invalid". -/
inductive ValidationError where
  | missingFields
  | invalidCuisine
  | invalidTags
deriving Repr, DecidableEq

/-- The basic presence guard of validateRecipe (and of POST /recipes/create):
!name || !cuisine || !ingredients || !instructions || !tags || !prepTime ||
!cookTime || !servings, under JavaScript truthiness. -/
def presenceFails (r : Candidate) : Bool :=
  !(truthyStr r.name) || !(truthyStr r.cuisine) || !(truthyList r.ingredients) ||
    !(truthyList r.instructions) || !(truthyList r.tags) || !(truthyInt r.prepTime) ||
    !(truthyInt r.cookTime) || !(truthyInt r.servings)

/-- validateRecipe(db, request): presence check, cuisine lookup by exact
name, tag lookup by name containment with a count comparison, then the
normalized recipe.  Pure: it performs no writes. -/
def validateRecipe (db : DB) (r : Candidate) : Except ValidationError NormalizedRecipe :=
  if presenceFails r then
    Except.error ValidationError.missingFields
  else
    match findOneCuisine db (r.cuisine.getD "") with
    | none => Except.error ValidationError.invalidCuisine
    | some cuisineDoc =>
      let tags := r.tags.getD []
      let tagDocs := findTags db tags
      if tagDocs.length != tags.length then
        Except.error ValidationError.invalidTags
      else
        Except.ok
          { name := r.name.getD ""
            cuisine := { id := cuisineDoc.id, name := cuisineDoc.name }
            prepTime := r.prepTime.getD 0
            cookTime := r.cookTime.getD 0
            servings := r.servings.getD 0
            ingredients := r.ingredients.getD []
            instructions := r.instructions.getD []
            tags := tagDocs }

/-- A MongoDB query object as built by the two search handlers: one optional
field per clause the source can emit.  nameRegex is \x7bname: \x7b$regex,
$options: "i"\x7d\x7d; tagNamesIn is \x7btags.name: \x7b$in: ...\x7d\x7d;
ingredientAllRegex is \x7bingredients.name: \x7b$all: [case-insensitive
regexes]\x7d\x7d; ingredientAllEq is \x7bingredients.name: \x7b$all: [plain
strings]\x7d\x7d; cuisineNameIn is \x7bcuisine.name: \x7b$in: ...\x7d\x7d. -/
structure Criteria where
  nameRegex : Option String
  tagNamesIn : Option (List String)
  ingredientAllRegex : Option (List String)
  ingredientAllEq : Option (List String)
  cuisineNameIn : Option (List String)
deriving Repr, DecidableEq

/-- The criteria object with no clauses. -/
def emptyCriteria : Criteria := ⟨none, none, none, none, none⟩

/-- MongoDB evaluation of a Criteria against one recipe document: every
present clause must hold.  $regex with option i on a scalar field is
case-insensitive substring containment; $in on an array path holds when some
element is in the list; $all with regexes holds when every regex is matched
by some element; $all with plain strings holds when every string equals some
element; $in on a scalar path is list membership. -/
def matchesCriteria (c : Criteria) (r : StoredRecipe) : Bool :=
  (match c.nameRegex with
   | none => true
   | some pat => ciContains r.name pat) &&
  (match c.tagNamesIn with
   | none => true
   | some ts => r.tags.any (fun t => ts.contains t.name)) &&
  (match c.ingredientAllRegex with
   | none => true
   | some pats => pats.all (fun pat => r.ingredients.any (fun i => ciContains i.name pat))) &&
  (match c.ingredientAllEq with
   | none => true
   | some vals => vals.all (fun v => r.ingredients.any (fun i => i.name == v))) &&
  (match c.cuisineNameIn with
   | none => true
   | some cs => cs.contains r.cuisine.name)

/-- The criteria construction of GET /recipes/search: the three query-string
parameters (absent parameter = none), each added only when truthy, the tag
and ingredient parameters split on commas, ingredients becoming
case-insensitive regexes under $all. -/
def searchCriteria (name tags ingredients : Option String) : Criteria :=
  let c1 := if truthyStr name then
      { emptyCriteria with nameRegex := some (name.getD "") }
    else emptyCriteria
  let c2 := if truthyStr tags then
      { c1 with tagNamesIn := some (splitComma (tags.getD "")) }
    else c1
  if truthyStr ingredients then
    { c2 with ingredientAllRegex := some (splitComma (ingredients.getD "")) }
  else c2

/-- The criteria construction of GET /ai/recipes from the structured AI
query: cuisines under $in on cuisine.name, ingredients as plain strings
under $all on ingredients.name, tags under $in on tags.name; each clause
added only when the array is non-empty. -/
def aiCriteria (sp : StructuredAIQuery) : Criteria :=
  let c1 := if sp.cuisines.length > 0 then
      { emptyCriteria with cuisineNameIn := some sp.cuisines }
    else emptyCriteria
  let c2 := if sp.ingredients.length > 0 then
      { c1 with ingredientAllEq := some sp.ingredients }
    else c1
  if sp.tags.length > 0 then
    { c2 with tagNamesIn := some sp.tags }
  else c2

/-- A thrown JavaScript exception: the BSONError of the ObjectId
constructor, or any other error. -/
inductive JsErr where
  | bson
  | other
deriving Repr, DecidableEq

/-- Body of GET /recipes/detail up to the catch: ObjectId(id) may throw,
findOne, 404 when absent, 200 with the recipe otherwise. -/
def detailCore (db : DB) (id : String) : Except JsErr Nat :=
  if !(isValidObjectId id) then Except.error JsErr.bson
  else
    match db.recipes.find? (fun r => r.id == id) with
    | none => Except.ok 404
    | some _ => Except.ok 200

/-- GET /recipes/detail: its catch maps a BSONError to 400 (invalid id
format) and any other error to 500. -/
def detailHandler (db : DB) (id : String) : Nat :=
  match detailCore db id with
  | Except.ok s => s
  | Except.error JsErr.bson => 400
  | Except.error JsErr.other => 500

/-- Body of DELETE /recipes/delete/:id up to the catch: ObjectId(id) may
throw, deleteOne, 404 when nothing was deleted. -/
def deleteCore (db : DB) (id : String) : Except JsErr (Nat × DB) :=
  if !(isValidObjectId id) then Except.error JsErr.bson
  else
    let remaining := db.recipes.filter (fun r => !(r.id == id))
    if remaining.length == db.recipes.length then
      Except.ok (404, db)
    else
      Except.ok (200, { db with recipes := remaining })

/-- DELETE /recipes/delete/:id: its catch maps every error, the BSONError
of a malformed id included, to 500. -/
def deleteHandler (db : DB) (id : String) : Nat × DB :=
  match deleteCore db id with
  | Except.ok x => x
  | Except.error _ => (500, db)

/-- updateOne with $set of a normalized recipe: the matched document keeps
its id and reviews, every field of the $set document is replaced. -/
def setRecipe (db : DB) (id : String) (nr : NormalizedRecipe) : DB :=
  { db with recipes := db.recipes.map (fun r =>
      if r.id == id then
        { r with name := nr.name, cuisine := nr.cuisine, prepTime := nr.prepTime,
                 cookTime := nr.cookTime, servings := nr.servings,
                 ingredients := nr.ingredients, instructions := nr.instructions,
                 tags := nr.tags }
      else r) }

/-- Body of PUT /recipes/update/:id up to the catch: validateRecipe first
(a validation failure answers 400 before the id is ever parsed), then
ObjectId(id) may throw, then updateOne with 404 on matchedCount 0. -/
def updateCore (db : DB) (id : String) (body : Candidate) : Except JsErr (Nat × DB) :=
  match validateRecipe db body with
  | Except.error _ => Except.ok (400, db)
  | Except.ok nr =>
    if !(isValidObjectId id) then Except.error JsErr.bson
    else if db.recipes.any (fun r => r.id == id) then
      Except.ok (200, setRecipe db id nr)
    else
      Except.ok (404, db)

/-- PUT /recipes/update/:id: its catch maps every error, the BSONError of a
malformed id included, to 500. -/
def updateHandler (db : DB) (id : String) (body : Candidate) : Nat × DB :=
  match updateCore db id body with
  | Except.ok x => x
  | Except.error _ => (500, db)

/-- $push of a review onto the reviews array of the recipe with this id. -/
def pushReview (db : DB) (id : String) (rv : Review) : DB :=
  { db with recipes := db.recipes.map (fun r =>
      if r.id == id then { r with reviews := r.reviews ++ [rv] } else r) }

/-- Body of POST /recipes/:id/reviews up to the catch: presence check of
user, rating, comment by truthiness (before the id is parsed), the new
review built with a server-generated review_id and date and the rating
coerced with Number (identity on a numeric rating), then ObjectId(id) may
throw, then updateOne with $push and 404 on matchedCount 0, else 201.
reviewId and now stand for the server-generated ObjectId and Date. -/
def reviewsCore (db : DB) (id : String) (user : Option String) (rating : Option Int)
    (comment : Option String) (reviewId : String) (now : Nat) : Except JsErr (Nat × DB) :=
  if !(truthyStr user) || !(truthyInt rating) || !(truthyStr comment) then
    Except.ok (400, db)
  else
    let newReview : Review :=
      { review_id := reviewId, user := user.getD "", rating := rating.getD 0,
        comment := comment.getD "", date := now }
    if !(isValidObjectId id) then Except.error JsErr.bson
    else if db.recipes.any (fun r => r.id == id) then
      Except.ok (201, pushReview db id newReview)
    else
      Except.ok (404, db)

/-- POST /recipes/:id/reviews: its catch maps every error, the BSONError of
a malformed id included, to 500. -/
def reviewsHandler (db : DB) (id : String) (user : Option String) (rating : Option Int)
    (comment : Option String) (reviewId : String) (now : Nat) : Nat × DB :=
  match reviewsCore db id user rating comment reviewId now with
  | Except.ok x => x
  | Except.error _ => (500, db)

/-- POST /ai/recipes after generateRecipe returned the draft: cuisine
looked up by exact name (404 and no insert when absent; the full cuisine
document replaces the name), tags resolved by name containment with no
count comparison, then insertOne and a 200 answer.  newId stands for the
ObjectId the store assigns at insertion. -/
def aiPostRecipes (db : DB) (d : RecipeDraft) (newId : String) : Nat × DB :=
  match findOneCuisine db d.cuisine with
  | none => (404, db)
  | some cuisineDoc =>
    let tagDocs := findTags db d.tags
    let newRecipe : StoredRecipe :=
      { id := newId, name := d.name, cuisine := cuisineDoc, prepTime := d.prepTime,
        cookTime := d.cookTime, servings := d.servings, ingredients := d.ingredients,
        instructions := d.instructions, tags := tagDocs, reviews := [] }
    (200, { db with recipes := db.recipes ++ [newRecipe] })

/-- The request-body candidate a recipe draft denotes, were it submitted to
validateRecipe: every draft field present. -/
def draftToCandidate (d : RecipeDraft) : Candidate :=
  { name := some d.name, cuisine := some d.cuisine, prepTime := some d.prepTime,
    cookTime := some d.cookTime, servings := some d.servings,
    ingredients := some d.ingredients, instructions := some d.instructions,
    tags := some d.tags }

/-- A JSON value, as produced by the AI backend and consumed by JSON.parse
in generateSearchParams. -/
inductive Json where
  | str : String → Json
  | num : Int → Json
  | bool : Bool → Json
  | null : Json
  | arr : List Json → Json
  | obj : List (String × Json) → Json

/-- Field lookup on a JSON object; none on any other value. -/
def Json.lookup : Json → String → Option Json
  | Json.obj fields, k => (fields.find? (fun p => p.1 == k)).map (fun p => p.2)
  | _, _ => none

/-- Is this JSON value a string. -/
def Json.isStr : Json → Bool
  | Json.str _ => true
  | _ => false

/-- Is this JSON value an array whose items are all strings: the semantics
of \x7btype: array, items: \x7btype: string\x7d\x7d. -/
def Json.isStrArr : Json → Bool
  | Json.arr xs => xs.all Json.isStr
  | _ => false

/-- Extract the strings of a JSON list, failing on any non-string item. -/
def asStringList : List Json → Option (List String)
  | [] => some []
  | Json.str s :: rest =>
    match asStringList rest with
    | some l => some (s :: l)
    | none => none
  | _ :: _ => none

/-- Extract a string array, failing unless the value is an array of
strings. -/
def Json.asStrArr : Json → Option (List String)
  | Json.arr xs => asStringList xs
  | _ => none

/-- Conformance to the responseJsonSchema declared in generateSearchParams,
transcribed literally: the value is an object; the required fields
ingredients, tags, cuisines, userLanguage are present; the first three are
arrays of strings and the last is a string (additional properties are not
constrained by the schema). -/
def searchParamsSchemaOk (j : Json) : Bool :=
  (match j with
   | Json.obj _ => true
   | _ => false) &&
  (match j.lookup "ingredients" with
   | some v => v.isStrArr
   | none => false) &&
  (match j.lookup "tags" with
   | some v => v.isStrArr
   | none => false) &&
  (match j.lookup "cuisines" with
   | some v => v.isStrArr
   | none => false) &&
  (match j.lookup "userLanguage" with
   | some v => v.isStr
   | none => false)

/-- The structured query the ai/recipes handlers read off the parsed AI
output: the four declared fields, three string arrays and one string; none
when the output does not carry that shape. -/
def decodeSearchParams (j : Json) : Option StructuredAIQuery :=
  match j.lookup "ingredients", j.lookup "tags", j.lookup "cuisines",
        j.lookup "userLanguage" with
  | some vi, some vt, some vc, some (Json.str lang) =>
    match vi.asStrArr, vt.asStrArr, vc.asStrArr with
    | some ings, some tgs, some cus => some ⟨cus, tgs, ings, lang⟩
    | _, _, _ => none
  | _, _, _, _ => none

/-- The schema-conforming AI output whose three arrays are all empty: valid
but empty, as opposed to malformed. -/
def emptySearchOutput : Json :=
  Json.obj [("ingredients", Json.arr []), ("tags", Json.arr []),
            ("cuisines", Json.arr []), ("userLanguage", Json.str "en")]

/-- Fixture: the tag document named spicy. -/
def tagSpicy : TagDoc := ⟨1, "spicy"⟩

/-- Fixture: the tag document named quick. -/
def tagQuick : TagDoc := ⟨2, "quick"⟩

/-- Fixture: the cuisine document named Thai. -/
def cuisineThai : CuisineDoc := ⟨1, "Thai"⟩

/-- Fixture: the cuisine document named Italian. -/
def cuisineItalian : CuisineDoc := ⟨2, "Italian"⟩

/-- Fixture: a stored recipe whose ingredient names are chicken breast,
garlic and salt. -/
def goodRecipe : StoredRecipe :=
  { id := "0123456789abcdef01234567", name := "Chicken Garlic Roast",
    cuisine := cuisineItalian, prepTime := 10, cookTime := 20, servings := 2,
    ingredients := [⟨"chicken breast", "1", ""⟩, ⟨"garlic", "2", "cloves"⟩,
                    ⟨"salt", "1", "tsp"⟩],
    instructions := ["Roast everything."], tags := [tagQuick], reviews := [] }

/-- Fixture: a stored recipe whose ingredient names are chicken and onion. -/
def badRecipe : StoredRecipe :=
  { id := "89abcdef0123456701234567", name := "Chicken Onion Stew",
    cuisine := cuisineThai, prepTime := 5, cookTime := 30, servings := 4,
    ingredients := [⟨"chicken", "1", ""⟩, ⟨"onion", "1", ""⟩],
    instructions := ["Stew everything."], tags := [tagSpicy], reviews := [] }

/-- Fixture: a database with two cuisines, two tags and two recipes. -/
def sampleDB : DB :=
  ⟨[cuisineThai, cuisineItalian], [tagSpicy, tagQuick], [goodRecipe, badRecipe]⟩

/-- Fixture: an AI recipe draft whose tag list names quick (known) and
unicorn (absent from the vocabulary). -/
def unicornDraft : RecipeDraft :=
  { name := "Pasta", cuisine := "Italian", prepTime := 10, cookTime := 20,
    servings := 2, ingredients := [⟨"spaghetti", "400", "g"⟩],
    instructions := ["Cook the pasta."], tags := ["quick", "unicorn"] }

/-- Fixture: a well-formed 24-character hex ObjectId string. -/
def newId24 : String := "abcdefabcdefabcdefabcdef"

/-- Fixture: a candidate naming the tag spicy twice. -/
def dupTagCandidate : Candidate :=
  { name := some "Tom Yum", cuisine := some "Thai", prepTime := some 10,
    cookTime := some 20, servings := some 2,
    ingredients := some [⟨"shrimp", "200", "g"⟩],
    instructions := some ["Boil stock."], tags := some ["spicy", "spicy"] }

/-- Fixture: a candidate naming the cuisine Atlantis, absent from the
vocabulary. -/
def atlantisCandidate : Candidate :=
  { name := some "Tom Yum", cuisine := some "Atlantis", prepTime := some 10,
    cookTime := some 20, servings := some 2,
    ingredients := some [⟨"shrimp", "200", "g"⟩],
    instructions := some ["Boil stock."], tags := some ["spicy"] }

/-- Fixture: a valid candidate requesting the tags in the order quick,
spicy, the reverse of the tags collection order. -/
def orderCandidate : Candidate :=
  { name := some "Tom Yum", cuisine := some "Thai", prepTime := some 10,
    cookTime := some 20, servings := some 2,
    ingredients := some [⟨"shrimp", "200", "g"⟩],
    instructions := some ["Boil stock."], tags := some ["quick", "spicy"] }

end RecipeService

namespace RecipeService

/-- Helper: extracting the strings of a JSON list succeeds exactly when
every item is a string. -/
theorem asStringList_isSome (xs : List Json) :
    (asStringList xs).isSome = xs.all Json.isStr := by
  induction xs with
  | nil => rfl
  | cons hd tl ih =>
    cases hd <;> simp [asStringList, Json.isStr]
    cases h : asStringList tl <;> simp_all

/-- Helper: extracting a string array from a JSON value succeeds exactly
when the value is an array whose items are all strings. -/
theorem asStrArr_isSome (v : Json) : (Json.asStrArr v).isSome = v.isStrArr := by
  cases v <;> simp [Json.asStrArr, Json.isStrArr, asStringList_isSome]

/-- Claim C3: for a candidate whose fields are all present and whose cuisine
resolves, validateRecipe fails with InvalidTags exactly when the number of
tag documents resolved from the vocabulary differs from the number of
requested tag names. -/
theorem validateRecipe_invalidTags_iff (db : DB) (r : Candidate) (tns : List String)
    (hp : presenceFails r = false) (cd : CuisineDoc)
    (hc : findOneCuisine db (r.cuisine.getD "") = some cd)
    (ht : r.tags = some tns) :
    (validateRecipe db r = Except.error ValidationError.invalidTags) ↔
      (findTags db tns).length ≠ tns.length := by
  unfold validateRecipe
  rw [hp, hc, ht]
  by_cases h : (findTags db tns).length = tns.length <;> simp [h]

/-- Witness for C3 at a concrete input: the duplicate names spicy, spicy
resolve to a single tag document, so the resolved count 1 differs from the
requested count 2 and validation fails with InvalidTags. -/
theorem validateRecipe_invalidTags_iff_witness :
    (findTags sampleDB ["spicy", "spicy"]).length = 1 ∧
      validateRecipe sampleDB dupTagCandidate = Except.error ValidationError.invalidTags := by
  refine ⟨by decide, ?_⟩
  exact (validateRecipe_invalidTags_iff sampleDB dupTagCandidate ["spicy", "spicy"]
    (by decide) cuisineThai (by decide) (by decide)).mpr (by decide)

/-- Claim C6: for a candidate whose fields are all present, a cuisine name
with no exact match in the cuisines vocabulary makes validateRecipe fail
with InvalidCuisine; validateRecipe is a pure function, so the failure is
reported with no write to any collection. -/
theorem validateRecipe_invalidCuisine (db : DB) (r : Candidate)
    (hp : presenceFails r = false)
    (hc : findOneCuisine db (r.cuisine.getD "") = none) :
    validateRecipe db r = Except.error ValidationError.invalidCuisine := by
  unfold validateRecipe
  rw [hp, hc]
  rfl

/-- Witness for C6 at a concrete input: the cuisine Atlantis is not in the
vocabulary and validation fails with InvalidCuisine. -/
theorem validateRecipe_invalidCuisine_witness :
    validateRecipe sampleDB atlantisCandidate = Except.error ValidationError.invalidCuisine :=
  validateRecipe_invalidCuisine sampleDB atlantisCandidate (by decide) (by decide)

/-- Claim C8: on successful validation the normalized recipe replaces the
cuisine by the resolved \x7bid, name\x7d snapshot and the tags by the full
resolved tag documents in lookup-result order (findTags, which filters the
tags collection in collection order), while name, prepTime, cookTime,
servings, ingredients and instructions are carried through unchanged. -/
theorem validateRecipe_success_shape (db : DB) (n c : String) (pt ct sv : Int)
    (ings : List Ingredient) (instrs : List String) (tns : List String)
    (hn : n ≠ "") (hcne : c ≠ "") (hpt : pt ≠ 0) (hct : ct ≠ 0) (hsv : sv ≠ 0)
    (cd : CuisineDoc) (hcd : findOneCuisine db c = some cd)
    (hlen : (findTags db tns).length = tns.length) :
    validateRecipe db
        ⟨some n, some c, some pt, some ct, some sv, some ings, some instrs, some tns⟩ =
      Except.ok ⟨n, ⟨cd.id, cd.name⟩, pt, ct, sv, ings, instrs, findTags db tns⟩ := by
  unfold validateRecipe
  simp [presenceFails, truthyStr, truthyInt, truthyList, hn, hcne, hpt, hct, hsv, hcd, hlen]

/-- Witness for C8 at a concrete input: the tags requested in the order
quick, spicy come back as the documents for spicy, quick (the collection
order), the cuisine is the resolved Thai snapshot, and the remaining six
fields are carried through unchanged. -/
theorem validateRecipe_success_shape_witness :
    validateRecipe sampleDB orderCandidate =
      Except.ok ⟨"Tom Yum", ⟨1, "Thai"⟩, 10, 20, 2, [⟨"shrimp", "200", "g"⟩],
        ["Boil stock."], [⟨1, "spicy"⟩, ⟨2, "quick"⟩]⟩ := by
  have h := validateRecipe_success_shape sampleDB "Tom Yum" "Thai" 10 20 2
    [⟨"shrimp", "200", "g"⟩] ["Boil stock."] ["quick", "spicy"]
    (by decide) (by decide) (by decide) (by decide) (by decide)
    cuisineThai (by decide) (by decide)
  exact h.trans rfl

/-- Claim C4: with a non-empty ingredients parameter, the search criteria
of GET /recipes/search match a recipe exactly when every supplied name
(comma-separated) is case-insensitively contained, as a substring, in the
name of at least one of the recipe ingredients. -/
theorem searchCriteria_ingredients_iff (ing : String) (hing : ing ≠ "") (r : StoredRecipe) :
    matchesCriteria (searchCriteria none none (some ing)) r = true ↔
      ∀ pat ∈ splitComma ing, ∃ i ∈ r.ingredients, ciContains i.name pat = true := by
  simp [searchCriteria, truthyStr, hing, matchesCriteria, emptyCriteria,
        List.all_eq_true, List.any_eq_true]

/-- Witness for C4 at the concrete inputs of the spec: ingredients
chicken,garlic match the recipe with ingredient names chicken breast,
garlic, salt, and do not match the recipe with ingredient names chicken,
onion. -/
theorem searchCriteria_ingredients_iff_witness :
    matchesCriteria (searchCriteria none none (some "chicken,garlic")) goodRecipe = true ∧
      matchesCriteria (searchCriteria none none (some "chicken,garlic")) badRecipe = false := by
  constructor
  · exact (searchCriteria_ingredients_iff "chicken,garlic" (by decide) goodRecipe).mpr
      (by decide)
  · decide

/-- Claim C7: when all three search inputs are absent, or present but
empty (falsy), GET /recipes/search builds the empty criteria object, which
matches every record. -/
theorem searchCriteria_empty_matches_all (name tags ingredients : Option String)
    (h1 : truthyStr name = false) (h2 : truthyStr tags = false)
    (h3 : truthyStr ingredients = false) (r : StoredRecipe) :
    matchesCriteria (searchCriteria name tags ingredients) r = true := by
  simp [searchCriteria, h1, h2, h3, matchesCriteria, emptyCriteria]

/-- Witness for C7 at concrete inputs: with every parameter absent, and
with an empty-string tags parameter, both fixture recipes match. -/
theorem searchCriteria_empty_matches_all_witness :
    matchesCriteria (searchCriteria none none none) goodRecipe = true ∧
      matchesCriteria (searchCriteria none (some "") none) badRecipe = true :=
  ⟨searchCriteria_empty_matches_all none none none (by decide) (by decide) (by decide)
      goodRecipe,
    searchCriteria_empty_matches_all none (some "") none (by decide) (by decide) (by decide)
      badRecipe⟩

/-- Counterexample to claim C2: for the same single-ingredient set
\x7bchicken\x7d, the structured path matches the recipe whose ingredient is
named chicken breast (case-insensitive substring) while the
natural-language path does not (its $all clause carries the plain string
chicken, an exact-equality match): the two paths do not denote the same
predicate. -/
theorem aiCriteria_not_substring_counterexample :
    matchesCriteria (searchCriteria none none (some "chicken")) goodRecipe = true ∧
      matchesCriteria (aiCriteria ⟨[], [], ["chicken"], "en"⟩) goodRecipe = false := by
  decide

/-- Claim C2 as amended: the natural-language path matches tags through
the same tags.name $in clause as the structured path, but matches each
AI-supplied ingredient name by exact whole-string equality against the
recipe ingredient names (not case-insensitive substring), and adds a
cuisine.name $in clause that has no counterpart in the structured path. -/
theorem aiCriteria_semantics (sp : StructuredAIQuery) (r : StoredRecipe) :
    matchesCriteria (aiCriteria sp) r = true ↔
      ((sp.cuisines ≠ [] → r.cuisine.name ∈ sp.cuisines) ∧
       (sp.tags ≠ [] → ∃ t ∈ r.tags, t.name ∈ sp.tags) ∧
       (∀ v ∈ sp.ingredients, ∃ i ∈ r.ingredients, i.name = v)) := by
  obtain ⟨cus, tgs, ings, lang⟩ := sp
  cases cus <;> cases tgs <;> cases ings <;>
    simp [aiCriteria, matchesCriteria, emptyCriteria, List.all_eq_true,
      List.any_eq_true] <;>
    aesop

/-- Witness for C2 (amended) at a concrete input: an AI query naming the
cuisine Thai and the exact ingredient chicken matches the fixture stew
(cuisine Thai, an ingredient named exactly chicken) by the amended
semantics. -/
theorem aiCriteria_semantics_witness :
    matchesCriteria (aiCriteria ⟨["Thai"], [], ["chicken"], "en"⟩) badRecipe = true :=
  (aiCriteria_semantics ⟨["Thai"], [], ["chicken"], "en"⟩ badRecipe).mpr (by decide)

/-- Counterexample to claim C1: the fixture draft names the tags quick
(known) and unicorn (absent from the vocabulary), so the Recipe Validator
rejects it with InvalidTags, yet POST /ai/recipes still inserts a recipe
into the recipes collection. -/
theorem aiPostRecipes_skips_validator :
    validateRecipe sampleDB (draftToCandidate unicornDraft) =
        Except.error ValidationError.invalidTags ∧
      (aiPostRecipes sampleDB unicornDraft newId24).2.recipes.length =
        sampleDB.recipes.length + 1 :=
  ⟨rfl, rfl⟩

/-- Claim C1 as amended: POST /ai/recipes does not run the draft through
the Recipe Validator; it checks only that the draft cuisine exists (404 and
no insert when it does not), and when the cuisine resolves it always
inserts, replacing the tag names by whatever tag documents resolve, with no
count check — unresolved tag names are silently dropped. -/
theorem aiPostRecipes_behavior (db : DB) (d : RecipeDraft) (newId : String) :
    (findOneCuisine db d.cuisine = none → aiPostRecipes db d newId = (404, db)) ∧
      (∀ cd, findOneCuisine db d.cuisine = some cd →
        aiPostRecipes db d newId =
          (200, { db with recipes := db.recipes ++
            [{ id := newId, name := d.name, cuisine := cd, prepTime := d.prepTime,
               cookTime := d.cookTime, servings := d.servings,
               ingredients := d.ingredients, instructions := d.instructions,
               tags := findTags db d.tags, reviews := [] }] })) := by
  constructor
  · intro h
    simp [aiPostRecipes, h]
  · intro cd h
    simp [aiPostRecipes, h]

/-- Witness for C1 (amended) at a concrete input: the fixture draft
resolves the cuisine Italian, and is inserted with the unresolved tag
unicorn dropped — the stored tag list holds only the quick document. -/
theorem aiPostRecipes_behavior_witness :
    aiPostRecipes sampleDB unicornDraft newId24 =
      (200, { sampleDB with recipes := sampleDB.recipes ++
        [{ id := newId24, name := "Pasta", cuisine := cuisineItalian, prepTime := 10,
           cookTime := 20, servings := 2, ingredients := [⟨"spaghetti", "400", "g"⟩],
           instructions := ["Cook the pasta."], tags := [tagQuick], reviews := [] }] }) := by
  have h := (aiPostRecipes_behavior sampleDB unicornDraft newId24).2
    cuisineItalian (by decide)
  exact h.trans rfl

/-- Counterexample to claim C5: the malformed id string not-a-valid-id is
rejected by the ObjectId constructor, yet DELETE /recipes/delete/:id
answers 500 (its catch swallows the BSONError), not the 400-equivalent
InvalidIdentifier the claim asserts for every id-taking operation. -/
theorem invalidId_delete_counterexample :
    isValidObjectId "not-a-valid-id" = false ∧
      (deleteHandler sampleDB "not-a-valid-id").1 = 500 ∧
      (deleteHandler sampleDB "not-a-valid-id").1 ≠ 400 := by
  decide

/-- Claim C5 as amended: only GET /recipes/detail maps a malformed id to
the 400-equivalent InvalidIdentifier, distinguished from the 404 a
well-formed but unknown id earns; DELETE, PUT (with a body that validates)
and review creation (with truthy fields) wrap the identifier error in
their generic catch and answer 500. -/
theorem invalidId_handling (db : DB) (id : String) (hid : isValidObjectId id = false) :
    detailHandler db id = 400 ∧
      (deleteHandler db id).1 = 500 ∧
      (∀ body nr, validateRecipe db body = Except.ok nr →
        (updateHandler db id body).1 = 500) ∧
      (∀ u n c rid now, truthyStr u = true → truthyInt n = true → truthyStr c = true →
        (reviewsHandler db id u n c rid now).1 = 500) ∧
      (∀ wid, isValidObjectId wid = true →
        db.recipes.find? (fun r => r.id == wid) = none → detailHandler db wid = 404) := by
  refine ⟨?_, ?_, ?_, ?_, ?_⟩
  · simp [detailHandler, detailCore, hid]
  · simp [deleteHandler, deleteCore, hid]
  · intro body nr hv
    simp [updateHandler, updateCore, hv, hid]
  · intro u n c rid now hu hn hc
    simp [reviewsHandler, reviewsCore, hu, hn, hc, hid]
  · intro wid hwid hfind
    simp [detailHandler, detailCore, hwid, hfind]

/-- Witness for C5 (amended) at concrete inputs: for the malformed id zzz,
detail answers 400 while delete, update (with a validating body) and
review creation answer 500; and detail answers 404 for a well-formed id
matching no record. -/
theorem invalidId_handling_witness :
    detailHandler sampleDB "zzz" = 400 ∧
      (deleteHandler sampleDB "zzz").1 = 500 ∧
      (updateHandler sampleDB "zzz" orderCandidate).1 = 500 ∧
      (reviewsHandler sampleDB "zzz" (some "alice") (some 5) (some "good") newId24 7).1 = 500 ∧
      detailHandler sampleDB newId24 = 404 := by
  have h := invalidId_handling sampleDB "zzz" (by decide)
  refine ⟨h.1, h.2.1, ?_, ?_, ?_⟩
  · exact h.2.2.1 orderCandidate
      ⟨"Tom Yum", ⟨1, "Thai"⟩, 10, 20, 2, [⟨"shrimp", "200", "g"⟩], ["Boil stock."],
        [⟨1, "spicy"⟩, ⟨2, "quick"⟩]⟩ rfl
  · exact h.2.2.2.1 (some "alice") (some 5) (some "good") newId24 7
      (by decide) (by decide) (by decide)
  · exact h.2.2.2.2 newId24 (by decide) (by decide)

/-- Claim C10: review creation tests presence by falsiness, so the rating
0 and the empty comment are rejected as missing required fields (400, no
write); any other numeric rating is accepted with no range check, and the
review appended carries the server-generated review id and timestamp. -/
theorem reviews_truthiness_and_rating (db : DB) (id : String) :
    (∀ u c rid now, reviewsHandler db id u (some 0) c rid now = (400, db)) ∧
      (∀ u n rid now, reviewsHandler db id u n (some "") rid now = (400, db)) ∧
      (∀ u n c rid now, u ≠ "" → (n : Int) ≠ 0 → c ≠ "" →
        isValidObjectId id = true → db.recipes.any (fun r => r.id == id) = true →
        reviewsHandler db id (some u) (some n) (some c) rid now =
          (201, pushReview db id ⟨rid, u, n, c, now⟩)) := by
  refine ⟨?_, ?_, ?_⟩
  · intro u c rid now
    simp [reviewsHandler, reviewsCore, truthyInt]
  · intro u n rid now
    simp [reviewsHandler, reviewsCore, truthyStr]
  · intro u n c rid now hu hn hc hid hmatch
    simp [reviewsHandler, reviewsCore, truthyStr, truthyInt, hu, hn, hc, hid, hmatch]

/-- Witness for C10 at concrete inputs: rating 0 and empty comment answer
400 and leave the store unchanged, while the out-of-any-plausible-range
rating 999 is accepted: 201 with the review (id rid1, timestamp 7)
appended to the fixture recipe. -/
theorem reviews_truthiness_and_rating_witness :
    reviewsHandler sampleDB "0123456789abcdef01234567" (some "bob") (some 0)
        (some "fine") newId24 7 = (400, sampleDB) ∧
      reviewsHandler sampleDB "0123456789abcdef01234567" (some "bob") (some 4)
        (some "") newId24 7 = (400, sampleDB) ∧
      reviewsHandler sampleDB "0123456789abcdef01234567" (some "bob") (some 999)
        (some "wow") newId24 7 =
        (201, pushReview sampleDB "0123456789abcdef01234567"
          ⟨newId24, "bob", 999, "wow", 7⟩) := by
  have h := reviews_truthiness_and_rating sampleDB "0123456789abcdef01234567"
  exact ⟨h.1 (some "bob") (some "fine") newId24 7, h.2.1 (some "bob") (some 4) newId24 7,
    h.2.2 "bob" 999 "wow" newId24 7 (by decide) (by decide) (by decide) (by decide)
      (by decide)⟩

/-- Claim C9: a JSON value decodes to a StructuredAIQuery — the four
declared fields, of which cuisines, tags and ingredients are arrays of
strings and userLanguage is a string — exactly when it conforms to the
responseJsonSchema declared in generateSearchParams; output not matching
the schema is a hard failure (the decode is none), distinct from the
valid output whose three arrays are empty, which decodes successfully. -/
theorem generateSearchParams_schema_iff :
    (∀ j : Json, (decodeSearchParams j).isSome = searchParamsSchemaOk j) ∧
      decodeSearchParams emptySearchOutput = some ⟨[], [], [], "en"⟩ := by
  refine ⟨?_, rfl⟩
  intro j
  cases j <;> try rfl
  case obj fs =>
    unfold decodeSearchParams searchParamsSchemaOk
    rcases hi : Json.lookup (Json.obj fs) "ingredients" with _ | vi <;>
      rcases ht : Json.lookup (Json.obj fs) "tags" with _ | vt <;>
        rcases hc : Json.lookup (Json.obj fs) "cuisines" with _ | vc <;>
          rcases hl : Json.lookup (Json.obj fs) "userLanguage" with _ | vl <;>
            simp [hi, ht, hc, hl]
    all_goals cases vl <;> simp [Json.isStr, ← asStrArr_isSome]
    all_goals cases vi.asStrArr <;> cases vt.asStrArr <;> cases vc.asStrArr <;> simp

end RecipeService
